import Mathlib

/-!
Shallow embedding of `src/compiler/llvm-to-backend/cpu/LLVMToCpu.cpp`
(the CPU backend translator of the AdaptiveCpp SSCP compiler) and proofs
about its flavoring, lowering, configuration and address-space-map
operations.

External collaborators (the LLVM IR object model, the base-class
`linkBitcodeFile`/`registerError`, the filesystem, the spawned compiler
process, and the CBS optimization pipeline) are modelled as explicit
parameters or, where the repository code is not under `src/`, from the
spec as marked.
-/

set_option autoImplicit false

namespace HipsyclCpu

/-- Linkage of an LLVM global value. Only `externalLinkage` is distinguished
by the translated code; the other constructors stand for the remaining LLVM
linkage kinds so that an original, non-external linkage is representable. -/
inductive Linkage where
  | externalLinkage
  | internalLinkage
  | privateLinkage
  | weakAnyLinkage
  deriving DecidableEq, Repr

/-- An LLVM metadata operand as used by `toBackendFlavor`:
`ValueAsMetadata::get(F)` (a reference to a function, identified by its
symbol name), `MDString`, or `ValueAsMetadata::getConstant(ConstantInt)`
(an integer constant of a given bit width). -/
inductive Metadata where
  | value (funcName : String)
  | str (s : String)
  | constInt (width : Nat) (val : Int)
  deriving DecidableEq, Repr

/-- A function of the IR module: its symbol name and linkage, the only
attributes the translated code reads or writes. -/
structure LLVMFunction where
  name : String
  linkage : Linkage
  deriving DecidableEq, Repr

/-- The slice of `llvm::Module` state touched by `LLVMToCpuTranslator`:
the declared target triple, the list of functions, and the operand list of
the named metadata node `hipsycl.sscp.annotations` (each operand is an
`MDTuple`, i.e. a list of metadata). -/
structure Module where
  targetTriple : String
  functions : List LLVMFunction
  sscpAnnotations : List (List Metadata)
  deriving DecidableEq, Repr

/-- The translator state: kernel names given at construction, the
configured target triple and CPU model (`MCpu`), and the base class's
append-only error log. -/
structure LLVMToCpuTranslator where
  KernelNames : List String
  TargetTriple : String
  MCpu : String
  ErrorLog : List String
  deriving DecidableEq, Repr

/-- The constructor `LLVMToCpuTranslator(KN)`: stores the kernel names and
initializes `TargetTriple` from `llvm::sys::getProcessTriple()` and `MCpu`
from `llvm::sys::getHostCPUName()`; both host values are passed in
explicitly. The error log starts empty. -/
def construct (KN : List String) (processTriple hostCPUName : String) :
    LLVMToCpuTranslator :=
  { KernelNames := KN
    TargetTriple := processTriple
    MCpu := hostCPUName
    ErrorLog := [] }

/-- Modelled from the spec: `registerError` of the base translator class
(`LLVMToBackendTranslator`, not under `src/`) appends one human-readable
entry to the append-only ErrorLog. -/
def registerError (t : LLVMToCpuTranslator) (msg : String) :
    LLVMToCpuTranslator :=
  { t with ErrorLog := t.ErrorLog ++ [msg] }

/-- `M.getFunction(name)`: the function of the module with the given
symbol name (LLVM symbol tables hold at most one; the embedding returns
the first match). -/
def Module.getFunction (M : Module) (n : String) : Option LLVMFunction :=
  M.functions.find? (fun f => f.name == n)

/-- The kernel-annotation record built in the loop of `toBackendFlavor`:
the `MDTuple` with operands `ValueAsMetadata::get(F)`,
`MDString "kernel"`, and `ConstantInt::get(Int32Ty, 1)`. -/
def kernelRecord (funcName : String) : List Metadata :=
  [Metadata.value funcName, Metadata.str "kernel", Metadata.constInt 32 1]

/-- `F->setLinkage(ExternalLinkage)` on the function named `n`:
rewrites the linkage of every function of the list carrying that symbol
name (in a well-formed module there is at most one). -/
def setExternalByName (fs : List LLVMFunction) (n : String) :
    List LLVMFunction :=
  fs.map fun g =>
    if g.name = n then { g with linkage := Linkage.externalLinkage } else g

/-- One iteration of the kernel loop of `toBackendFlavor`: if
`M.getFunction(KernelName)` resolves, append the kernel-annotation record
to `hipsycl.sscp.annotations` and set the function's linkage to external;
otherwise leave the module unchanged. -/
def annotateKernel (M : Module) (n : String) : Module :=
  match M.getFunction n with
  | none => M
  | some F =>
      { M with
        sscpAnnotations := M.sscpAnnotations ++ [kernelRecord F.name]
        functions := setExternalByName M.functions n }

/-- `toBackendFlavor(M, PH)`. Steps translated from the source:
set the module triple to `llvm::sys::getProcessTriple()` (passed in as
`processTriple`); run the kernel loop over `KernelNames`; then link the
builtin bitcode library (the base-class `linkBitcodeFile` is an external
collaborator, its success is the parameter `linkSucceeds`) and return
`false` if it fails. The final CBS optimization pipeline run mutates the
module through external collaborator passes and is outside the embedding;
the claims about this function concern the steps before it. -/
def toBackendFlavor (t : LLVMToCpuTranslator) (processTriple : String)
    (linkSucceeds : Bool) (M : Module) : Bool × Module :=
  let M1 := { M with targetTriple := processTriple }
  let M2 := t.KernelNames.foldl annotateKernel M1
  if linkSucceeds then (true, M2) else (false, M2)

/-- The argument vector of `translateToBackendFormat`: the initializer
list of `Invocation`, plus `-target-cpu <MCpu>` pushed when
`MCpu != "generic"`. -/
def buildInvocation (clangPath targetTriple outputFilename inputTmpName
    mcpu : String) : List String :=
  let Invocation := [clangPath, "-cc1", "-triple", targetTriple, "-O3",
    "-S", "-x", "ir", "-o", outputFilename, inputTmpName]
  if mcpu != "generic" then Invocation ++ ["-target-cpu", mcpu]
  else Invocation

/-- The environment a lowering call interacts with:
the clang binary path (`HIPSYCL_CLANG_PATH`), the results of the two
`llvm::sys::fs::TempFile::create` calls (`some tmpName` on success,
`none` on failure), the exit code returned by
`llvm::sys::ExecuteAndWait`, and the result of
`llvm::MemoryBuffer::getFile` on the output file (error message or file
contents). -/
structure LoweringEnv where
  clangPath : String
  inputTemp : Option String
  outputTemp : Option String
  exitCode : Int
  readResult : Except String String
  deriving Repr

/-- The observable outcome of one `translateToBackendFormat` call: the
boolean return value, the translator with its (possibly extended) error
log, the final contents of the caller's `out` buffer, the argument vector
handed to `ExecuteAndWait` (`none` when the call failed before reaching
it), and whether each temporary file is still present on the filesystem
when the call returns. -/
structure LoweringOutcome where
  success : Bool
  translator : LLVMToCpuTranslator
  out : String
  invocation : Option (List String)
  inputFileExists : Bool
  outputFileExists : Bool
  deriving Repr

/-- `translateToBackendFormat(FlavoredModule, out)`. Translated control
flow: both temp files are created first; the input-error check and the
output-error check each return `false` before the `AtScopeExit` cleanup
guards are registered, so on those paths a temp file that WAS created is
not discarded (it still exists at return). Once both guards are
registered, every later path discards both files. The module dump to the
fixed file `hipsycl-sscp-cpu.ll` and the bitcode serialization are
best-effort side effects with no checked result and are not part of the
outcome. On the creation-failure paths the source builds the message from
the `TmpName` of an errored `llvm::Expected` (which holds no value); the
embedding renders that name as the empty string. -/
def translateToBackendFormat (t : LLVMToCpuTranslator) (env : LoweringEnv)
    (out : String) : LoweringOutcome :=
  match env.inputTemp with
  | none =>
      { success := false
        translator := registerError t "LLVMToCpu: Could not create temp file: "
        out := out
        invocation := none
        inputFileExists := false
        outputFileExists := env.outputTemp.isSome }
  | some inName =>
      match env.outputTemp with
      | none =>
          { success := false
            translator := registerError t "LLVMToCpu: Could not create temp file: "
            out := out
            invocation := none
            inputFileExists := true
            outputFileExists := false }
      | some outName =>
          let inv := buildInvocation env.clangPath t.TargetTriple outName
            inName t.MCpu
          if env.exitCode ≠ 0 then
            { success := false
              translator := registerError t
                ("LLVMToCpu: clang invocation failed with exit code " ++
                  toString env.exitCode)
              out := out
              invocation := some inv
              inputFileExists := false
              outputFileExists := false }
          else
            match env.readResult with
            | Except.error msg =>
                { success := false
                  translator := registerError t
                    ("LLVMToCpu: Could not read result file" ++ msg)
                  out := out
                  invocation := some inv
                  inputFileExists := false
                  outputFileExists := false }
            | Except.ok contents =>
                { success := true
                  translator := t
                  out := contents
                  invocation := some inv
                  inputFileExists := false
                  outputFileExists := false }

/-- `applyBuildOption(Option, Value)`: `"triple"` sets `TargetTriple`,
`"cpu"` sets `MCpu`, anything else returns `false` without mutation. -/
def applyBuildOption (t : LLVMToCpuTranslator) (option value : String) :
    Bool × LLVMToCpuTranslator :=
  if option = "triple" then (true, { t with TargetTriple := value })
  else if option = "cpu" then (true, { t with MCpu := value })
  else (false, t)

/-- `isKernelAfterFlavoring(F)`: true iff the function's name occurs in
`KernelNames`. -/
def isKernelAfterFlavoring (t : LLVMToCpuTranslator) (F : LLVMFunction) :
    Bool :=
  t.KernelNames.any (fun n => F.name == n)

/-- The address-space classifications named by the source
(`AddressSpace::Generic` … `AddressSpace::ConstantGlobalVariableDefault`).
The enum itself is declared in `AddressSpaceMap.hpp`, which is not under
`src/`; its constructors are exactly the enumerators the source uses. -/
inductive AddressSpace where
  | Generic
  | Global
  | Local
  | Private
  | Constant
  | AllocaDefault
  | GlobalVariableDefault
  | ConstantGlobalVariableDefault
  deriving DecidableEq, Repr

/-- Modelled from the spec: `AddressSpaceMap` (declared in
`AddressSpaceMap.hpp`, not under `src/`) is a mapping from address-space
classifications to non-negative target codes; a classification that has
been assigned maps to `some code`, an unassigned one has no entry. -/
def AddressSpaceMap := AddressSpace → Option Nat

/-- The default-constructed map, with no entry assigned. -/
def AddressSpaceMap.empty : AddressSpaceMap := fun _ => none

/-- `ASMap[a] = v`: assignment of one classification. -/
def AddressSpaceMap.set (m : AddressSpaceMap) (a : AddressSpace) (v : Nat) :
    AddressSpaceMap :=
  fun x => if x = a then some v else m x

/-- `getAddressSpaceMap()`: a `const` method reading no translator state;
it assigns code 0 to every one of the eight classifications. -/
def getAddressSpaceMap (_t : LLVMToCpuTranslator) : AddressSpaceMap :=
  ((((((((AddressSpaceMap.empty.set
    AddressSpace.Generic 0).set
    AddressSpace.Global 0).set
    AddressSpace.Local 0).set
    AddressSpace.Private 0).set
    AddressSpace.Constant 0).set
    AddressSpace.AllocaDefault 0).set
    AddressSpace.GlobalVariableDefault 0).set
    AddressSpace.ConstantGlobalVariableDefault 0)

/-- `sub` occurs as a substring of `s`. -/
def containsStr (s sub : String) : Prop :=
  ∃ p q : String, s = p ++ sub ++ q

/-- Whether the module has a function with symbol name `n`. -/
def hasFunction (M : Module) (n : String) : Bool :=
  M.functions.any (fun f => f.name == n)

/-- The number of kernel-annotation records referencing the function named
`n` in an annotation operand list. -/
def countKernelRecords (anns : List (List Metadata)) (n : String) : Nat :=
  anns.count (kernelRecord n)

/-! ### Helper lemmas about the kernel loop -/

theorem kernelRecord_inj {m k : String} :
    kernelRecord m = kernelRecord k ↔ m = k := by
  simp [kernelRecord]

theorem setExternalByName_id {fs : List LLVMFunction} {n : String}
    (h : ∀ f ∈ fs, f.name ≠ n) : setExternalByName fs n = fs := by
  unfold setExternalByName
  rw [List.map_congr_left (g := id)] <;> simp_all

theorem annotateKernel_functions (M : Module) (n : String) :
    (annotateKernel M n).functions = setExternalByName M.functions n := by
  unfold annotateKernel Module.getFunction
  cases h : M.functions.find? (fun f => f.name == n) with
  | none =>
      simp only
      rw [setExternalByName_id]
      intro f hf
      have := List.find?_eq_none.mp h f hf
      simpa using this
  | some F => rfl

theorem annotateKernel_triple (M : Module) (n : String) :
    (annotateKernel M n).targetTriple = M.targetTriple := by
  unfold annotateKernel
  cases h : M.getFunction n <;> rfl

theorem annotateKernel_anns (M : Module) (n : String) :
    (annotateKernel M n).sscpAnnotations =
      M.sscpAnnotations ++
        (if hasFunction M n then [kernelRecord n] else []) := by
  unfold annotateKernel Module.getFunction hasFunction
  cases h : M.functions.find? (fun f => f.name == n) with
  | none =>
      have hany : M.functions.any (fun f => f.name == n) = false := by
        rw [List.any_eq_false]
        intro f hf
        simpa using List.find?_eq_none.mp h f hf
      simp [hany]
  | some F =>
      have hFn : F.name = n := by
        have := List.find?_some h
        simpa using this
      have hmem : F ∈ M.functions := List.mem_of_find?_eq_some h
      have hany : M.functions.any (fun f => f.name == n) = true := by
        rw [List.any_eq_true]
        exact ⟨F, hmem, by simpa using hFn⟩
      simp [hany, hFn]

theorem setExternalByName_names (fs : List LLVMFunction) (n : String) :
    (setExternalByName fs n).map LLVMFunction.name =
      fs.map LLVMFunction.name := by
  unfold setExternalByName
  rw [List.map_map]
  apply List.map_congr_left
  intro f _
  by_cases h : f.name = n <;> simp [h]

theorem hasFunction_annotateKernel (M : Module) (k n : String) :
    hasFunction (annotateKernel M k) n = hasFunction M n := by
  unfold hasFunction
  rw [annotateKernel_functions]
  have : ∀ fs : List LLVMFunction,
      fs.any (fun f => f.name == n) =
        (fs.map LLVMFunction.name).any (fun s => s == n) := by
    intro fs
    induction fs with
    | nil => rfl
    | cons f fs ih => simp [ih]
  rw [this, this, setExternalByName_names]

theorem foldl_annotate_functions (ns : List String) (M : Module) :
    (ns.foldl annotateKernel M).functions =
      M.functions.map (fun g =>
        if g.name ∈ ns then { g with linkage := Linkage.externalLinkage }
        else g) := by
  induction ns generalizing M with
  | nil => simp
  | cons k ns ih =>
      rw [List.foldl_cons, ih, annotateKernel_functions]
      unfold setExternalByName
      rw [List.map_map]
      apply List.map_congr_left
      intro g _
      by_cases hk : g.name = k <;> by_cases hn : g.name ∈ ns <;>
        simp [hk, hn, Function.comp]

theorem foldl_annotate_triple (ns : List String) (M : Module) :
    (ns.foldl annotateKernel M).targetTriple = M.targetTriple := by
  induction ns generalizing M with
  | nil => rfl
  | cons k ns ih => rw [List.foldl_cons, ih, annotateKernel_triple]

theorem foldl_annotate_count (ns : List String) (M : Module) (m : String) :
    countKernelRecords (ns.foldl annotateKernel M).sscpAnnotations m =
      countKernelRecords M.sscpAnnotations m +
        (if hasFunction M m then ns.count m else 0) := by
  induction ns generalizing M with
  | nil => simp
  | cons k ns ih =>
      rw [List.foldl_cons, ih, hasFunction_annotateKernel]
      unfold countKernelRecords
      rw [annotateKernel_anns, List.count_append]
      by_cases hmk : m = k
      · subst hmk
        by_cases hf : hasFunction M m
        · simp [hf, List.count_cons, kernelRecord_inj]
          omega
        · simp [hf, List.count_cons, kernelRecord_inj]
      · have hne : kernelRecord m ≠ kernelRecord k :=
          fun h => hmk (kernelRecord_inj.mp h)
        by_cases hf : hasFunction M m <;>
          by_cases hfk : hasFunction M k <;>
            simp [hf, hfk, List.count_cons, hne, Ne.symm hne, hmk,
              Ne.symm hmk]

/-! ### Concrete instances used by counterexamples and witnesses -/

/-- A translator constructed with kernel names `k1`, `k2` on a host whose
process triple is `host-triple` and whose CPU name is `host-cpu`. -/
def exampleTranslator : LLVMToCpuTranslator :=
  construct ["k1", "k2"] "host-triple" "host-cpu"

/-- A translator constructed with the duplicated kernel-name list
`[k1, k1]`. -/
def dupTranslator : LLVMToCpuTranslator :=
  construct ["k1", "k1"] "host-triple" "host-cpu"

/-- A module holding an internal-linkage function `k1` (a kernel) and an
internal-linkage function `other` (not a kernel), with no annotations. -/
def exampleModule : Module :=
  { targetTriple := "orig-triple"
    functions := [{ name := "k1", linkage := Linkage.internalLinkage },
                  { name := "other", linkage := Linkage.internalLinkage }]
    sscpAnnotations := [] }

/-- A lowering environment where both temp files were created and the
spawned compiler exited with code 17. -/
def envExit17 : LoweringEnv :=
  { clangPath := "/usr/bin/clang"
    inputTemp := some "hipsycl-sscp-cpu-aaaaaa.bc"
    outputTemp := some "hipsycl-sscp-cpu-bbbbbb.s"
    exitCode := 17
    readResult := Except.error "unused" }

/-- A lowering environment where creating the input temp file failed while
the output temp file was successfully created. -/
def envInputCreateFailed : LoweringEnv :=
  { clangPath := "/usr/bin/clang"
    inputTemp := none
    outputTemp := some "hipsycl-sscp-cpu-bbbbbb.s"
    exitCode := 0
    readResult := Except.ok "asm" }

/-! ### Claim C1 -/

/-- C1, counterexample: the claim says flavoring sets the module's declared
target triple to the configured `TargetTriple` field. After
`applyBuildOption("triple", "x86_64-pc-linux")` the configured field is
`x86_64-pc-linux`, yet `toBackendFlavor` sets the module triple to the
host process triple `host-triple`, so the two differ. -/
theorem C1_counterexample :
    ((toBackendFlavor
        (applyBuildOption exampleTranslator "triple" "x86_64-pc-linux").2
        "host-triple" true exampleModule).2).targetTriple ≠
      (applyBuildOption exampleTranslator "triple" "x86_64-pc-linux").2.TargetTriple := by
  decide

/-- C1, amended: during flavoring the module's declared target triple is
set to the host process triple (the value `llvm::sys::getProcessTriple()`
returns), not to the configured `TargetTriple` field; the two coincide
exactly when `TargetTriple` still holds its construction-time default,
since construction initializes `TargetTriple` from the same host value. -/
theorem C1_amended (t : LLVMToCpuTranslator) (processTriple : String)
    (linkSucceeds : Bool) (M : Module) :
    ((toBackendFlavor t processTriple linkSucceeds M).2).targetTriple =
      processTriple ∧
    ∀ KN hostCPU,
      (construct KN processTriple hostCPU).TargetTriple = processTriple := by
  constructor
  · cases linkSucceeds <;>
      simp [toBackendFlavor, foldl_annotate_triple]
  · intro KN hostCPU
    rfl

/-! ### Claim C2 -/

/-- C2, counterexample: the claim says a failed builtin-library link leaves
the module without partial modification. On a module holding the
internal-linkage kernel `k1`, a flavoring call whose link step fails
returns failure, yet one kernel-annotation record has been appended and
the linkage of `k1` has been rewritten to external. -/
theorem C2_counterexample :
    (toBackendFlavor exampleTranslator "host-triple" false exampleModule).1 =
      false ∧
    (toBackendFlavor exampleTranslator "host-triple" false
        exampleModule).2.sscpAnnotations = [kernelRecord "k1"] ∧
    Module.getFunction
      (toBackendFlavor exampleTranslator "host-triple" false exampleModule).2
      "k1" =
      some { name := "k1", linkage := Linkage.externalLinkage } ∧
    Module.getFunction exampleModule "k1" =
      some { name := "k1", linkage := Linkage.internalLinkage } := by
  decide

/-- C2, amended: when the builtin bitcode library cannot be linked,
`toBackendFlavor` does return failure, but the module keeps every mutation
made before the link step: it is exactly the module a successful call
produces at that point (triple set, and one kernel-annotation record
appended plus external linkage forced per resolving occurrence in
`KernelNames`). -/
theorem C2_amended (t : LLVMToCpuTranslator) (processTriple : String)
    (M : Module) :
    (toBackendFlavor t processTriple false M).1 = false ∧
    (toBackendFlavor t processTriple false M).2 =
      (toBackendFlavor t processTriple true M).2 ∧
    ∀ n, countKernelRecords
        (toBackendFlavor t processTriple false M).2.sscpAnnotations n =
      countKernelRecords M.sscpAnnotations n +
        (if hasFunction M n then t.KernelNames.count n else 0) := by
  refine ⟨rfl, rfl, ?_⟩
  intro n
  show countKernelRecords
      (t.KernelNames.foldl annotateKernel
        { M with targetTriple := processTriple }).sscpAnnotations n = _
  rw [foldl_annotate_count]
  rfl

/-! ### Claim C3 -/

/-- C3, counterexample: the claim says both temp files are absent on every
exit path, including temp-file-creation failure. On the exit path where
creating the input temp file failed but the output temp file was created,
the call fails before the cleanup guards are registered and the output
temp file is still present at return. -/
theorem C3_counterexample :
    (translateToBackendFormat exampleTranslator envInputCreateFailed
        "orig").success = false ∧
    (translateToBackendFormat exampleTranslator envInputCreateFailed
        "orig").outputFileExists = true := by
  exact ⟨rfl, rfl⟩

/-- C3, amended: once both temp files have been created, both are absent
from the filesystem when the call returns on every exit path (subprocess
failure, output-read failure, success). On the creation-failure exit
paths, which return before the cleanup guards are registered, a temp file
that was successfully created while the other failed is NOT removed: if
input creation failed the output file persists iff it was created, and if
only output creation failed the input file persists. -/
theorem C3_amended (t : LLVMToCpuTranslator) (env : LoweringEnv)
    (out : String) :
    (∀ i o, env.inputTemp = some i → env.outputTemp = some o →
      (translateToBackendFormat t env out).inputFileExists = false ∧
      (translateToBackendFormat t env out).outputFileExists = false) ∧
    (env.inputTemp = none →
      (translateToBackendFormat t env out).inputFileExists = false ∧
      (translateToBackendFormat t env out).outputFileExists =
        env.outputTemp.isSome) ∧
    (∀ i, env.inputTemp = some i → env.outputTemp = none →
      (translateToBackendFormat t env out).inputFileExists = true ∧
      (translateToBackendFormat t env out).outputFileExists = false) := by
  refine ⟨?_, ?_, ?_⟩
  · intro i o hi ho
    unfold translateToBackendFormat
    rw [hi, ho]
    by_cases h : env.exitCode = 0
    · cases hr : env.readResult <;> simp [h, hr]
    · simp [h]
  · intro hi
    unfold translateToBackendFormat
    rw [hi]
    exact ⟨rfl, rfl⟩
  · intro i hi ho
    unfold translateToBackendFormat
    rw [hi, ho]
    exact ⟨rfl, rfl⟩

/-- C3, witness: at the concrete environment where both temp files were
created and the compiler exited with code 17, both files are absent at
return. -/
theorem C3_witness :
    (translateToBackendFormat exampleTranslator envExit17
        "orig").inputFileExists = false ∧
    (translateToBackendFormat exampleTranslator envExit17
        "orig").outputFileExists = false :=
  (C3_amended exampleTranslator envExit17 "orig").1
    "hipsycl-sscp-cpu-aaaaaa.bc" "hipsycl-sscp-cpu-bbbbbb.s" rfl rfl

/-! ### Claim C4 -/

/-- C4: after flavoring, every function of the module whose name is an
entry of the kernel-name set (the names given at construction, duplicate
free) has external linkage, and exactly one kernel-annotation record
referencing it — the tuple of function reference, the string `kernel` and
the 32-bit constant 1 — has been appended to the `hipsycl.sscp.annotations`
collection; functions whose names are not in the set are unchanged and
gain no record. -/
theorem C4_kernelAnnotations (t : LLVMToCpuTranslator)
    (processTriple : String) (M : Module) (hK : t.KernelNames.Nodup) :
    (∀ f' ∈ (toBackendFlavor t processTriple true M).2.functions,
        f'.name ∈ t.KernelNames →
          f'.linkage = Linkage.externalLinkage) ∧
    (∀ n ∈ t.KernelNames, hasFunction M n = true →
        countKernelRecords
            (toBackendFlavor t processTriple true M).2.sscpAnnotations n =
          countKernelRecords M.sscpAnnotations n + 1) ∧
    (∀ f ∈ M.functions, f.name ∉ t.KernelNames →
        f ∈ (toBackendFlavor t processTriple true M).2.functions ∧
        countKernelRecords
            (toBackendFlavor t processTriple true M).2.sscpAnnotations
            f.name =
          countKernelRecords M.sscpAnnotations f.name) := by
  have hmod : (toBackendFlavor t processTriple true M).2 =
      t.KernelNames.foldl annotateKernel
        { M with targetTriple := processTriple } := rfl
  refine ⟨?_, ?_, ?_⟩
  · intro f' hf' hname
    rw [hmod, foldl_annotate_functions] at hf'
    obtain ⟨g, _, hg⟩ := List.mem_map.mp hf'
    by_cases hgn : g.name ∈ t.KernelNames
    · rw [if_pos hgn] at hg
      rw [← hg]
    · rw [if_neg hgn] at hg
      exact absurd (hg ▸ hname) hgn
  · intro n hn hf
    rw [hmod, foldl_annotate_count]
    have hf' : hasFunction { M with targetTriple := processTriple } n =
        true := hf
    rw [hf', if_pos rfl, List.count_eq_one_of_mem hK hn]
  · intro f hf hname
    constructor
    · rw [hmod, foldl_annotate_functions]
      exact List.mem_map.mpr ⟨f, hf, by simp [hname]⟩
    · rw [hmod, foldl_annotate_count]
      have hzero : t.KernelNames.count f.name = 0 :=
        List.count_eq_zero.mpr hname
      by_cases hfn : hasFunction { M with targetTriple := processTriple }
          f.name = true <;> simp [hfn, hzero]

/-- C4, witness: on the concrete module holding kernel `k1` and
non-kernel `other`, flavoring appends exactly one record for `k1`. -/
theorem C4_witness :
    countKernelRecords
        (toBackendFlavor exampleTranslator "host-triple" true
          exampleModule).2.sscpAnnotations "k1" =
      countKernelRecords exampleModule.sscpAnnotations "k1" + 1 :=
  (C4_kernelAnnotations exampleTranslator "host-triple" exampleModule
    (by decide)).2.1 "k1" (by decide) (by decide)

/-! ### Claim C5 -/

/-- C5: whenever `translateToBackendFormat` fails, the caller's `out`
buffer is unchanged and exactly one entry has been appended to the
ErrorLog; in particular, when the external compiler exits with code 17
(both temp files having been created), the call fails and the single
appended entry contains the substring `17`. -/
theorem C5_lowering_errors (t : LLVMToCpuTranslator) (env : LoweringEnv)
    (out : String) :
    ((translateToBackendFormat t env out).success = false →
      (translateToBackendFormat t env out).out = out ∧
      ∃ e, (translateToBackendFormat t env out).translator.ErrorLog =
        t.ErrorLog ++ [e]) ∧
    (env.exitCode = 17 → env.inputTemp.isSome → env.outputTemp.isSome →
      (translateToBackendFormat t env out).success = false ∧
      ∃ e, (translateToBackendFormat t env out).translator.ErrorLog =
          t.ErrorLog ++ [e] ∧ containsStr e "17") := by
  constructor
  · cases hi : env.inputTemp with
    | none =>
        intro _
        unfold translateToBackendFormat
        rw [hi]
        exact ⟨rfl, _, rfl⟩
    | some i =>
        cases ho : env.outputTemp with
        | none =>
            intro _
            unfold translateToBackendFormat
            rw [hi, ho]
            exact ⟨rfl, _, rfl⟩
        | some o =>
            by_cases h : env.exitCode = 0
            · cases hr : env.readResult with
              | error msg =>
                  intro _
                  unfold translateToBackendFormat
                  rw [hi, ho]
                  simp [h, hr, registerError]
              | ok contents =>
                  intro hfalse
                  unfold translateToBackendFormat at hfalse
                  rw [hi, ho] at hfalse
                  simp [h, hr] at hfalse
            · intro _
              unfold translateToBackendFormat
              rw [hi, ho]
              simp [h, registerError]
  · intro h17 hi ho
    obtain ⟨i, hi⟩ := Option.isSome_iff_exists.mp hi
    obtain ⟨o, ho⟩ := Option.isSome_iff_exists.mp ho
    unfold translateToBackendFormat
    rw [hi, ho, h17]
    refine ⟨by norm_num, ?_⟩
    refine ⟨"LLVMToCpu: clang invocation failed with exit code " ++
      toString (17 : Int), ?_, ?_⟩
    · simp [registerError]
    · exact ⟨"LLVMToCpu: clang invocation failed with exit code ", "", rfl⟩

/-- C5, witness: a lowering call whose compiler subprocess exited with
code 17 fails and appends one entry containing `17`. -/
theorem C5_witness :
    (translateToBackendFormat exampleTranslator envExit17 "orig").success =
      false ∧
    ∃ e, (translateToBackendFormat exampleTranslator envExit17
        "orig").translator.ErrorLog =
      exampleTranslator.ErrorLog ++ [e] ∧ containsStr e "17" :=
  (C5_lowering_errors exampleTranslator envExit17 "orig").2 rfl rfl rfl

/-! ### Claim C6 -/

/-- C6: the argument vector handed to the external compiler is exactly
`[clang, -cc1, -triple, TargetTriple, -O3, -S, -x, ir, -o, output-path,
input-path]`, extended by `-target-cpu <MCpu>` precisely when the
configured CPU model differs from the sentinel `generic`; the model
argument is the configured `MCpu` verbatim. -/
theorem C6_invocation (t : LLVMToCpuTranslator) (env : LoweringEnv)
    (out : String) (i o : String)
    (hi : env.inputTemp = some i) (ho : env.outputTemp = some o) :
    (translateToBackendFormat t env out).invocation =
      some ([env.clangPath, "-cc1", "-triple", t.TargetTriple, "-O3",
        "-S", "-x", "ir", "-o", o, i] ++
        (if t.MCpu = "generic" then [] else ["-target-cpu", t.MCpu])) := by
  have hb : buildInvocation env.clangPath t.TargetTriple o i t.MCpu =
      [env.clangPath, "-cc1", "-triple", t.TargetTriple, "-O3", "-S",
        "-x", "ir", "-o", o, i] ++
        (if t.MCpu = "generic" then [] else ["-target-cpu", t.MCpu]) := by
    unfold buildInvocation
    by_cases hm : t.MCpu = "generic" <;> simp [hm]
  unfold translateToBackendFormat
  rw [hi, ho]
  by_cases h : env.exitCode = 0
  · cases hr : env.readResult <;> simp [h, hr, hb]
  · simp [h, hb]

/-- C6, witness: with the configured CPU model `host-cpu` (not the
sentinel), the invocation built for the code-17 environment carries
`-target-cpu host-cpu`. -/
theorem C6_witness :
    (translateToBackendFormat exampleTranslator envExit17
        "orig").invocation =
      some ["/usr/bin/clang", "-cc1", "-triple", "host-triple", "-O3",
        "-S", "-x", "ir", "-o", "hipsycl-sscp-cpu-bbbbbb.s",
        "hipsycl-sscp-cpu-aaaaaa.bc", "-target-cpu", "host-cpu"] := by
  have h := C6_invocation exampleTranslator envExit17 "orig"
    "hipsycl-sscp-cpu-aaaaaa.bc" "hipsycl-sscp-cpu-bbbbbb.s" rfl rfl
  rw [h]
  decide

/-! ### Claim C7 -/

/-- C7: `applyBuildOption` with key `triple` sets only `TargetTriple` and
succeeds, with key `cpu` sets only `MCpu` and succeeds, and with any
other key fails while mutating nothing — in particular the ErrorLog is
left untouched in all three cases. -/
theorem C7_applyBuildOption (t : LLVMToCpuTranslator)
    (key value : String) :
    (key = "triple" →
      applyBuildOption t key value =
        (true, { t with TargetTriple := value })) ∧
    (key = "cpu" →
      applyBuildOption t key value = (true, { t with MCpu := value })) ∧
    (key ≠ "triple" → key ≠ "cpu" →
      applyBuildOption t key value = (false, t)) := by
  refine ⟨?_, ?_, ?_⟩
  · intro h
    simp [applyBuildOption, h]
  · intro h
    subst h
    unfold applyBuildOption
    rw [if_neg (by decide), if_pos rfl]
  · intro h1 h2
    simp [applyBuildOption, h1, h2]

/-- C7, witness: the unrecognized key `bogus` fails and returns the
translator unchanged. -/
theorem C7_witness :
    applyBuildOption exampleTranslator "bogus" "x" =
      (false, exampleTranslator) :=
  (C7_applyBuildOption exampleTranslator "bogus" "x").2.2 (by decide)
    (by decide)

/-! ### Claim C8 -/

/-- C8: the address-space map returned by `getAddressSpaceMap` has an
entry for every classification — in particular all seven the spec names —
and every entry's value is 0, for every translator state. -/
theorem C8_addressSpaceMap (t : LLVMToCpuTranslator) (a : AddressSpace) :
    getAddressSpaceMap t a = some 0 := by
  cases a <;> rfl

/-! ### Claim C9 -/

/-- C9: beyond the seven classifications the spec lists, the returned map
assigns code 0 to an eighth one, the constant-global-variable default,
which is distinct from all seven. -/
theorem C9_eighthEntry (t : LLVMToCpuTranslator) :
    getAddressSpaceMap t AddressSpace.ConstantGlobalVariableDefault =
      some 0 ∧
    AddressSpace.ConstantGlobalVariableDefault ∉
      [AddressSpace.Generic, AddressSpace.Global, AddressSpace.Local,
        AddressSpace.Private, AddressSpace.Constant,
        AddressSpace.AllocaDefault,
        AddressSpace.GlobalVariableDefault] :=
  ⟨rfl, by decide⟩

/-! ### Claim C10 -/

/-- C10: the kernel loop iterates the kernel-name sequence as supplied,
without deduplication: a name occurring k times in `KernelNames` that
resolves to a function of the module gets k kernel-annotation records
appended, and that function ends with external linkage. -/
theorem C10_duplicates (t : LLVMToCpuTranslator) (processTriple : String)
    (linkSucceeds : Bool) (M : Module) (n : String)
    (hf : hasFunction M n = true) :
    countKernelRecords
        (toBackendFlavor t processTriple linkSucceeds
          M).2.sscpAnnotations n =
      countKernelRecords M.sscpAnnotations n + t.KernelNames.count n ∧
    (n ∈ t.KernelNames →
      ∃ f' ∈ (toBackendFlavor t processTriple linkSucceeds M).2.functions,
        f'.name = n ∧ f'.linkage = Linkage.externalLinkage) := by
  have hmod : (toBackendFlavor t processTriple linkSucceeds M).2 =
      t.KernelNames.foldl annotateKernel
        { M with targetTriple := processTriple } := by
    cases linkSucceeds <;> rfl
  constructor
  · rw [hmod, foldl_annotate_count]
    have hf' : hasFunction { M with targetTriple := processTriple } n =
        true := hf
    rw [hf', if_pos rfl]
  · intro hn
    obtain ⟨f, hfmem, hfn⟩ := List.any_eq_true.mp hf
    have hfn' : f.name = n := by simpa using hfn
    rw [hmod, foldl_annotate_functions]
    refine ⟨{ f with linkage := Linkage.externalLinkage },
      List.mem_map.mpr ⟨f, hfmem, ?_⟩, hfn', rfl⟩
    rw [if_pos (hfn' ▸ hn)]

/-- C10, witness: with the duplicated kernel-name list `[k1, k1]`,
flavoring the module holding `k1` appends two records for `k1`. -/
theorem C10_witness :
    countKernelRecords
        (toBackendFlavor dupTranslator "host-triple" true
          exampleModule).2.sscpAnnotations "k1" =
      countKernelRecords exampleModule.sscpAnnotations "k1" + 2 := by
  rw [(C10_duplicates dupTranslator "host-triple" true exampleModule "k1"
    (by decide)).1]
  decide

end HipsyclCpu
